import Mathlib

/-!
Shallow embedding of the riverqueue/apiframe endpoint execution pipeline.

Source files embedded here:
- `apierror/api_error.go`: the `APIError` envelope, its JSON marshaling (struct
  tags: `InternalError json:"-"`, `Message json:"message"`, `StatusCode json:"-"`)
  and `Write`.
- `apitype/explicit_nullable.go`: `ExplicitNullable[T]`, `UnmarshalJSON`,
  `ExtractExplicitNullableValueForValidation`.
- `apiendpoint` (`Mount`, `executeAPIEndpoint`, `maybeInterpretInternalError`).
- `apitest` (`InvokeHandler`).

Go error values that flow through the pipeline are represented by the inductive
`GoErr`: the leaves are the error kinds the repository constructs or inspects
(pgconn connect errors, pg errors with an SQLSTATE code, the context deadline
sentinel, validator errors, generic errors, API-error envelopes) and `wrap`
models `fmt.Errorf("...: %w", err)`.  `errors.As` / `errors.Is` walk the wrap
chain exactly as Go does: each wrapper is inspected first, then unwrapped; none
of the leaf types has an `Unwrap` method, so chains are linear and end at a
single leaf.

Strings are Go strings; JSON marshaling of the envelope is modelled by a small
tag-driven field marshaler mirroring `encoding/json` struct-tag handling
(fields tagged `-` are skipped, the HTML-escaping string encoder is
reproduced in `jsonQuote`).
-/

namespace Apiframe

/-- One violation reported by the go-playground validator: the struct field
name and the tag (rule) that failed, e.g. `required`. -/
structure Violation where
  field : String
  tag : String
deriving DecidableEq, Repr

/-- Model of a `*slog.Logger` value.  A nil logger pointer is represented by
`Option.none` at use sites. -/
inductive SLogger where
  | defaultLogger
  | custom (id : Nat)
deriving DecidableEq, Repr

/-- Go error values constructed or inspected by the repository.  `wrap` models
`fmt.Errorf` with `%w`; `api` models any of the `apierror` structs (they all
embed `APIError` and differ only in the status code fixed at construction). -/
inductive GoErr where
  | pgConnect (message : String)
  | pg (code : String) (message : String)
  | deadlineExceeded
  | generic (message : String)
  | validationErr (field : String) (tag : String)
  | api (message : String) (statusCode : Nat) (internalError : Option GoErr)
  | wrap (pre : String) (inner : GoErr)

/-- The `APIError` struct of `apierror/api_error.go`, with its three fields and
their JSON tags reproduced below in `APIError.jsonFields`. -/
structure APIError where
  InternalError : Option GoErr
  Message : String
  StatusCode : Nat

/-- `errors.As(err, &apiErr)` with target `apierror.Interface`: walks the wrap
chain and yields the embedded `APIError` of the first envelope found. -/
def GoErr.asAPIError : GoErr → Option APIError
  | .api m s i => some ⟨i, m, s⟩
  | .wrap _ inner => inner.asAPIError
  | _ => none

/-- `errors.As(err, &connectErr)` with target `*pgconn.ConnectError`. -/
def GoErr.asConnectError : GoErr → Option String
  | .pgConnect m => some m
  | .wrap _ inner => inner.asConnectError
  | _ => none

/-- `errors.As(err, &pgErr)` with target `*pgconn.PgError`: yields the
SQLSTATE code and message. -/
def GoErr.asPgError : GoErr → Option (String × String)
  | .pg c m => some (c, m)
  | .wrap _ inner => inner.asPgError
  | _ => none

/-- `errors.Is(err, context.DeadlineExceeded)`. -/
def GoErr.isDeadlineExceeded : GoErr → Bool
  | .deadlineExceeded => true
  | .wrap _ inner => inner.isDeadlineExceeded
  | _ => false

/-- The `Error()` string of a modelled Go error (used only inside log
records, whose content no claim depends on). -/
def GoErr.errString : GoErr → String
  | .pgConnect m => m
  | .pg _ m => m
  | .deadlineExceeded => "context deadline exceeded"
  | .generic m => m
  | .validationErr f t => f ++ ": " ++ t
  | .api m _ _ => m
  | .wrap pre inner => pre ++ inner.errString

/-- Lower-case hex digit, as produced by Go's JSON string encoder. -/
def hexDigit (n : Nat) : Char :=
  if n < 10 then Char.ofNat (48 + n) else Char.ofNat (87 + n)

/-- Two lower-case hex digits of a byte. -/
def hexByte (n : Nat) : String :=
  String.mk [hexDigit (n / 16), hexDigit (n % 16)]

/-- Escaping of one character by Go's `encoding/json` string encoder with the
default HTML escaping: the quote, the backslash, control characters, and the
HTML-significant characters are escaped. -/
def jsonEscapeChar (c : Char) : String :=
  if c = '"' then "\\\""
  else if c = '\\' then "\\\\"
  else if c = '\n' then "\\n"
  else if c = '\r' then "\\r"
  else if c = '\t' then "\\t"
  else if c = '<' then "\\u003c"
  else if c = '>' then "\\u003e"
  else if c = '&' then "\\u0026"
  else if c.toNat < 32 then "\\u00" ++ hexByte c.toNat
  else String.singleton c

/-- Go `encoding/json` encoding of a string value, quotes included. -/
def jsonQuote (s : String) : String :=
  "\"" ++ String.join (s.data.map jsonEscapeChar) ++ "\""

/-- A JSON-marshalable struct field value, as far as the envelope needs. -/
inductive JSONFieldValue where
  | str (s : String)
  | num (n : Nat)
  | errVal (e : Option GoErr)

/-- A struct field together with its `json:"..."` tag. -/
structure JSONField where
  tag : String
  value : JSONFieldValue

/-- Rendering of one field value by `encoding/json`. -/
def jsonFieldRender : JSONFieldValue → String
  | .str s => jsonQuote s
  | .num n => toString n
  | .errVal _ => "null"

/-- Comma-joined list of strings. -/
def commaJoin : List String → String
  | [] => ""
  | [x] => x
  | x :: xs => x ++ "," ++ commaJoin xs

/-- `encoding/json` marshaling of a struct: fields tagged `-` are skipped, the
rest are rendered as `"tag":value` inside one object. -/
def marshalFields (fs : List JSONField) : String :=
  "\x7b" ++ commaJoin ((fs.filter (fun f => f.tag != "-")).map
    (fun f => jsonQuote f.tag ++ ":" ++ jsonFieldRender f.value)) ++ "\x7d"

/-- The tagged fields of `APIError`, in declaration order:
`InternalError error json:"-"`, `Message string json:"message"`,
`StatusCode int json:"-"`. -/
def APIError.jsonFields (e : APIError) : List JSONField :=
  [⟨"-", .errVal e.InternalError⟩, ⟨"message", .str e.Message⟩,
   ⟨"-", .num e.StatusCode⟩]

/-- `json.Marshal(e)` for an `*APIError`. -/
def APIError.marshal (e : APIError) : String :=
  marshalFields e.jsonFields

/-- An HTTP response as accumulated on the `http.ResponseWriter`. -/
structure HTTPResponse where
  contentType : Option String
  status : Option Nat
  body : String
deriving DecidableEq, Repr

/-- `(*APIError).Write`: sets the content type, writes the status code, then
the marshaled body.  (The logger argument of the Go method is used only when
marshaling or the sink write fails, which cannot happen in this model.) -/
def APIError.write (e : APIError) : HTTPResponse :=
  { contentType := some "application/json; charset=utf-8"
    status := some e.StatusCode
    body := e.marshal }

/-- `ExplicitNullable[T]` of `apitype/explicit_nullable.go`: `Set` is true if
the field was present in the request; `Value` is the inner value if provided. -/
structure ExplicitNullable (T : Type) where
  Set : Bool
  Value : Option T
deriving DecidableEq, Repr

/-- `(*ExplicitNullable[T]).UnmarshalJSON(data)`: marks the field as present,
treats a literal `null` as explicit null, and otherwise unmarshals the data
into the value.  `decodeT` stands for `json.Unmarshal` at type `T`; the second
component of the result is the returned error (if any); the first component is
the state of the receiver after the call (Go mutates the receiver in place, so
it is observable even when an error is returned). -/
def UnmarshalJSON {T : Type} (ps : ExplicitNullable T)
    (decodeT : String → Except String T) (data : String) :
    ExplicitNullable T × Option String :=
  let ps1 : ExplicitNullable T := { ps with Set := true }
  if data = "null" then (ps1, none)
  else
    match decodeT data with
    | .ok v => ({ ps1 with Value := some v }, none)
    | .error e => (ps1, some e)

/-- Decoding of one `ExplicitNullable[T]` field inside a JSON object payload,
following `encoding/json` semantics: if the key is absent the unmarshaler is
never invoked and the field keeps its zero value; if the key is present,
`UnmarshalJSON` runs on the fragment starting from the zero value, and its
error (if any) fails the whole payload decode. -/
def decodeExplicitNullableField {T : Type} (fragment : Option String)
    (decodeT : String → Except String T) : Except String (ExplicitNullable T) :=
  match fragment with
  | none => .ok { Set := false, Value := none }
  | some data =>
    match UnmarshalJSON { Set := false, Value := none } decodeT data with
    | (ps, none) => .ok ps
    | (_, some e) => .error e

/-- `ExtractExplicitNullableValueForValidation` of
`apitype/explicit_nullable.go`: returns no value if the field is omitted or
explicitly null (so validation is skipped), and the inner value if the field
was explicitly set.  (The Go function also returns nil when the reflected
value is not an `ExplicitNullable[T]` at all; the model is typed, so that
branch cannot arise.) -/
def ExtractExplicitNullableValueForValidation {T : Type}
    (f : ExplicitNullable T) : Option T :=
  if !f.Set || f.Value.isNone then none else f.Value

/-- The SQLSTATE code `pgerrcode.InsufficientPrivilege` of the external
`jackc/pgerrcode` package. -/
def insufficientPrivilege : String := "42501"

/-- `maybeInterpretInternalError` of the `apiendpoint` package: rewrites a
database connect failure or an insufficient-privilege database error into a
public-safe `BadRequest` envelope carrying the original error as the internal
cause (`apierror.WithInternalError`); every other error is returned
unchanged. -/
def maybeInterpretInternalError (err : GoErr) : GoErr :=
  match err.asConnectError with
  | some _ =>
    .api "There was a problem connecting to the configured database. Check logs for details."
      400 (some err)
  | none =>
    match err.asPgError with
    | some (code, _) =>
      if code = insufficientPrivilege then
        .api "Insufficient database privilege to perform this operation." 400 (some err)
      else err
    | none => err

/-- One call of a logging method: the receiver it was invoked on (`none` for a
nil `*slog.Logger`), the level, and the fixed message. -/
structure LogCall where
  receiver : Option SLogger
  level : String
  message : String
deriving DecidableEq, Repr

/-- The outcome of the error branch of `executeAPIEndpoint`: the response
written and the logging calls performed. -/
structure ClassifiedWrite where
  response : HTTPResponse
  logs : List LogCall
deriving DecidableEq, Repr

/-- The error branch of `executeAPIEndpoint` (its trailing `if err != nil`
block): first `maybeInterpretInternalError`, then in order: a carried
envelope is logged at info level and written as-is; a context-deadline error
is logged at error level and written as a 503 `ServiceUnavailable`; anything
else is logged at error level and written as a generic 500
`InternalServerError` whose message omits the original error text. -/
def classifyAndWrite (logger : Option SLogger) (err0 : GoErr) : ClassifiedWrite :=
  let err := maybeInterpretInternalError err0
  match err.asAPIError with
  | some apiErr =>
    { response := apiErr.write
      logs := [⟨logger, "info", "API error response"⟩] }
  | none =>
    if err.isDeadlineExceeded then
      { response := (APIError.mk none
          "Request timed out. Retrying the request might work." 503).write
        logs := [⟨logger, "error", "request timeout"⟩] }
    else
      { response := (APIError.mk none
          "Internal server error. Check logs for more information." 500).write
        logs := [⟨logger, "error", "error running API route"⟩] }

/-- HTTP methods as far as the pipeline distinguishes them: the body-reading
branch runs exactly when the method is not GET. -/
inductive Method where
  | get
  | post
  | put
  | patch
  | del
deriving DecidableEq, Repr

/-- The result of `io.ReadAll(r.Body)`: the full body bytes, a
`*http.MaxBytesError`, or another read error. -/
inductive BodyRead where
  | ok (data : String)
  | maxBytesError
  | readError (message : String)
deriving DecidableEq, Repr

/-- An inbound HTTP request, reduced to what `executeAPIEndpoint` inspects. -/
structure Request where
  method : Method
  body : BodyRead
deriving DecidableEq, Repr

/-- `EndpointMeta` of the `apiendpoint` package. -/
structure EndpointMeta where
  Pattern : String
  StatusCode : Nat
deriving DecidableEq, Repr

/-- Description of one rule of a `required` violation, as rendered in the
public-facing message.  Only the `required` tag is exercised by this
repository's tests. -/
def constraintDescription (tag : String) : String :=
  match tag with
  | "required" => "required"
  | t => t

/-- Modelled from the spec: `PublicFacingMessage` of the repository's
`internal/validate` package, which is absent from the sources; only its
callers and the endpoint tests are available.  The spec describes it as
rendering the first validation violation as one sentence of the form
`Field <name> is <constraint-description>.`; the spec text quotes the field
name with single quotes, but the in-repository test
`TestMountAndServe/ValidationError` pins the exact rendering for a missing
required field to a backtick-quoted name, which this model follows. -/
def publicFacingMessage (v : Violation) : String :=
  "Field `" ++ v.field ++ "` is " ++ constraintDescription v.tag ++ "."

/-- The per-type capabilities `executeAPIEndpoint` is instantiated with for a
concrete endpoint: the zero value of `TReq`, `json.Unmarshal` at `TReq`
(`decode`), the optional `RawExtractor` implementation of `TReq`, the
validator applied to the request and the first violation it reports
(`validate`), the endpoint's `Execute`, the optional `RawResponder`
implementation of `TResp`, and `json.Marshal` at `TResp` (`encode`).  The
raw extractor also receives the raw `*http.Request` in Go; no claim concerns
an endpoint that has one, so that argument is elided. -/
structure EndpointModel (TReq TResp : Type) where
  zero : TReq
  decode : String → Except String TReq
  rawExtract : Option (TReq → Except GoErr TReq)
  validate : TReq → Option Violation
  execute : TReq → Except GoErr TResp
  rawRespond : Option (TResp → Except GoErr HTTPResponse)
  encode : TResp → Except String String

/-- The body-reading and decoding prefix of `executeAPIEndpoint`'s inner
closure: for a non-GET method, read the body (a `MaxBytesError` becomes a 413
`RequestEntityTooLarge` envelope, another read failure a wrapped plain error),
then, only if the body is non-empty, `json.Unmarshal` it into the request
value (failure becomes a 400 `BadRequest` embedding the decoder's message).
For GET the body is never read or decoded and the zero request value is
used. -/
def readAndDecodeBody {TReq TResp : Type} (ep : EndpointModel TReq TResp)
    (r : Request) : Except GoErr TReq :=
  match r.method with
  | .get => .ok ep.zero
  | _ =>
    match r.body with
    | .maxBytesError => .error (.api "Request entity too large." 413 none)
    | .readError m => .error (.wrap "error reading request body: " (.generic m))
    | .ok data =>
      if data = "" then .ok ep.zero
      else
        match ep.decode data with
        | .error m =>
          .error (.api ("Error unmarshaling request body: " ++ m ++ ".") 400 none)
        | .ok req => .ok req

/-- The `RawExtractor` capability check of `executeAPIEndpoint`: invoked when
the concrete request type implements it, a no-op otherwise. -/
def applyRawExtract {TReq TResp : Type} (ep : EndpointModel TReq TResp)
    (req : TReq) : Except GoErr TReq :=
  match ep.rawExtract with
  | none => .ok req
  | some ex => ex req

/-- The response-writing suffix of `executeAPIEndpoint`'s inner closure: a
`RawResponder` response type writes to the sink itself; otherwise the
response is marshaled (failure is a wrapped plain error) and written with the
endpoint's configured success status code. -/
def respondStage {TReq TResp : Type} (ep : EndpointModel TReq TResp)
    (meta : EndpointMeta) (resp : TResp) : Except GoErr HTTPResponse :=
  match ep.rawRespond with
  | some respond => respond resp
  | none =>
    match ep.encode resp with
    | .error m => .error (.wrap "error marshaling response JSON: " (.generic m))
    | .ok data =>
      .ok { contentType := some "application/json; charset=utf-8"
            status := some meta.StatusCode
            body := data }

/-- The inner closure of `executeAPIEndpoint`, in source order: read and
decode the body, run the optional raw extractor, validate (a first violation
becomes a 400 `BadRequest` built from `publicFacingMessage`), invoke the
handler, respond.  The first component records the request value the handler
was invoked with (`none` if the handler was never reached). -/
def innerRun {TReq TResp : Type} (ep : EndpointModel TReq TResp)
    (meta : EndpointMeta) (r : Request) :
    Option TReq × Except GoErr HTTPResponse :=
  match readAndDecodeBody ep r with
  | .error e => (none, .error e)
  | .ok req0 =>
    match applyRawExtract ep req0 with
    | .error e => (none, .error e)
    | .ok req =>
      match ep.validate req with
      | some v => (none, .error (.api (publicFacingMessage v) 400 none))
      | none =>
        match ep.execute req with
        | .error e => (some req, .error e)
        | .ok resp => (some req, respondStage ep meta resp)

/-- The observable outcome of one pipeline execution. -/
structure PipelineResult (TReq : Type) where
  response : HTTPResponse
  handlerArg : Option TReq
  logs : List LogCall

/-- `executeAPIEndpoint` of the `apiendpoint` package: runs the inner closure
and, when it returns an error, classifies and writes it.  (The 10-second
timeout context derived at the top only influences the handler through the
context it receives, which is abstracted into `ep.execute`'s result.) -/
def executeAPIEndpoint {TReq TResp : Type} (logger : Option SLogger)
    (meta : EndpointMeta) (ep : EndpointModel TReq TResp) (r : Request) :
    PipelineResult TReq :=
  match innerRun ep meta r with
  | (h, .ok resp) => { response := resp, handlerArg := h, logs := [] }
  | (h, .error e) =>
    let c := classifyAndWrite logger e
    { response := c.response, handlerArg := h, logs := c.logs }

/-- `MountOpts` of the `apiendpoint` package.  The middleware stack and the
validator override play no role in the claims: middleware only wraps the
handler, and the validator in effect is abstracted into
`EndpointModel.validate`. -/
structure MountOpts where
  Logger : Option SLogger
deriving DecidableEq, Repr

/-- What `Mount` produces: the logger injected into the endpoint via
`SetLogger`, and the per-request handler closure registered on the mux. -/
structure MountResult (TReq : Type) where
  endpointLogger : Option SLogger
  innerHandler : Request → PipelineResult TReq

/-- `Mount` of the `apiendpoint` package: defaults nil options, computes a
fallback logger (`slog.Default()`) when `opts.Logger` is nil and sets it on
the endpoint via `SetLogger` — but the registered closure calls
`executeAPIEndpoint` with `opts.Logger`, exactly as the source does on its
line 149, not with the computed fallback. -/
def Mount {TReq TResp : Type} (ep : EndpointModel TReq TResp)
    (meta : EndpointMeta) (optsIn : Option MountOpts) : MountResult TReq :=
  let opts := optsIn.getD ⟨none⟩
  let logger := match opts.Logger with
    | none => some SLogger.defaultLogger
    | some l => some l
  { endpointLogger := logger
    innerHandler := fun r => executeAPIEndpoint opts.Logger meta ep r }

/-- `InvokeHandler` of the `apitest` package: validate the request (a first
violation becomes a 400 `BadRequest` built from the public-facing message),
invoke the handler (its error is returned unchanged), validate the response
(a violation becomes a plain wrapped error).  `validateReq` and
`validateResp` are the validator in effect applied at the request and
response types. -/
def InvokeHandler {TReq TResp : Type} (validateReq : TReq → Option Violation)
    (handler : TReq → Except GoErr TResp)
    (validateResp : TResp → Option Violation) (req : TReq) :
    Except GoErr TResp :=
  match validateReq req with
  | some v => .error (.api (publicFacingMessage v) 400 none)
  | none =>
    match handler req with
    | .error e => .error e
    | .ok resp =>
      match validateResp resp with
      | some v =>
        .error (.wrap "apitest: error validating response API resource: "
          (.validationErr v.field v.tag))
      | none => .ok resp

/-!
Test fixtures used by witnesses and counterexamples.  `SField` is a
declarative model of one struct field as the validator sees it: its name, its
`validate:"..."` tag, and whether the decoded value is the type's zero value;
`firstViolation` is the validator applied to such a struct, reporting the
first field whose `required` tag fails (the go-playground `required` rule
fails exactly on a zero value).
-/

/-- One struct field as seen by the validator. -/
structure SField where
  name : String
  tag : String
  isZero : Bool
deriving DecidableEq, Repr

/-- The validator on a struct of `SField`s: the first `required` field holding
a zero value is the first violation. -/
def firstViolation (fields : List SField) : Option Violation :=
  (fields.find? (fun f => f.tag == "required" && f.isZero)).map
    (fun f => ⟨f.name, f.tag⟩)

/-- Fixture mirroring `postRequest` of `api_endpoint_test.go` reduced to its
validated field: one field `message` tagged `required`.  Decoding the empty
JSON object yields the zero struct; the one non-zero payload the fixture
understands is the test's `Hello.` message. -/
def postFixtureDecode (data : String) : Except String (List SField) :=
  if data = "\x7b\x7d" then .ok [⟨"message", "required", true⟩]
  else if data = "\x7b\"message\":\"Hello.\"\x7d" then
    .ok [⟨"message", "required", false⟩]
  else .error "unsupported payload"

/-- Fixture endpoint mirroring `postEndpoint` of `api_endpoint_test.go`,
without its raw extractor (the validation-error scenario does not reach it). -/
def epPost : EndpointModel (List SField) (List SField) where
  zero := [⟨"message", "required", true⟩]
  decode := postFixtureDecode
  rawExtract := none
  validate := firstViolation
  execute := fun req => .ok req
  rawRespond := none
  encode := fun _ => .ok "\x7b\x7d"

/-- Metadata of the `postEndpoint` fixture. -/
def metaPost : EndpointMeta := ⟨"POST /api/post-endpoint/\x7bid\x7d", 201⟩

/-- Fixture endpoint mirroring `getEndpoint` of `api_endpoint_test.go`: no
validated request fields, a fixed response. -/
def epGet : EndpointModel (List SField) String where
  zero := []
  decode := fun _ => .error "decode is never reached on GET"
  rawExtract := none
  validate := firstViolation
  execute := fun _ => .ok "\x7b\"message\":\"Hello.\"\x7d"
  rawRespond := none
  encode := fun s => .ok s

/-- Metadata of the `getEndpoint` fixture. -/
def metaGet : EndpointMeta := ⟨"GET /api/get-endpoint", 200⟩

/-!
Helper lemmas.
-/

/-- String concatenation is associative. -/
theorem strAppendAssoc (a b c : String) : a ++ b ++ c = a ++ (b ++ c) := by
  apply String.ext
  simp [String.data_append, List.append_assoc]

/-- The envelope marshals to an object holding only the `message` field: the
`InternalError` and `StatusCode` fields carry the JSON tag `-` and are
skipped. -/
theorem APIError.marshal_message (e : APIError) :
    e.marshal = "\x7b\"message\":" ++ jsonQuote e.Message ++ "\x7d" := by
  show marshalFields e.jsonFields = _
  simp only [APIError.jsonFields, marshalFields, List.filter, commaJoin,
    jsonFieldRender]
  rw [show jsonQuote "message" = "\"message\"" from rfl]
  rw [← strAppendAssoc, ← strAppendAssoc]
  rfl

/-- An error chain satisfying `errors.Is(err, context.DeadlineExceeded)` ends
at the deadline sentinel, so it matches neither `*pgconn.ConnectError` nor
`*pgconn.PgError`. -/
theorem deadline_not_pg : ∀ (e : GoErr), e.isDeadlineExceeded = true →
    e.asConnectError = none ∧ e.asPgError = none
  | .wrap _ inner, h => by
    simp only [GoErr.isDeadlineExceeded] at h
    simpa [GoErr.asConnectError, GoErr.asPgError] using deadline_not_pg inner h
  | .deadlineExceeded, _ => by simp [GoErr.asConnectError, GoErr.asPgError]
  | .pgConnect _, h => by simp [GoErr.isDeadlineExceeded] at h
  | .pg _ _, h => by simp [GoErr.isDeadlineExceeded] at h
  | .generic _, h => by simp [GoErr.isDeadlineExceeded] at h
  | .validationErr _ _, h => by simp [GoErr.isDeadlineExceeded] at h
  | .api _ _ _, h => by simp [GoErr.isDeadlineExceeded] at h

/-- Reinterpretation leaves a deadline error unchanged. -/
theorem maybeInterpret_of_deadline (e : GoErr) (h : e.isDeadlineExceeded = true) :
    maybeInterpretInternalError e = e := by
  obtain ⟨h1, h2⟩ := deadline_not_pg e h
  simp [maybeInterpretInternalError, h1, h2]

/-- An error chain matching `*pgconn.PgError` ends at a `PgError` leaf, so it
carries no envelope and is not a deadline error. -/
theorem pg_leaf_facts : ∀ (e : GoErr) (p : String × String),
    e.asPgError = some p →
    e.asAPIError = none ∧ e.isDeadlineExceeded = false
  | .wrap _ inner, p, h => by
    simp only [GoErr.asPgError] at h
    simpa [GoErr.asAPIError, GoErr.isDeadlineExceeded] using
      pg_leaf_facts inner p h
  | .pg _ _, _, _ => by simp [GoErr.asAPIError, GoErr.isDeadlineExceeded]
  | .deadlineExceeded, _, h => by simp [GoErr.asPgError] at h
  | .pgConnect _, _, h => by simp [GoErr.asPgError] at h
  | .generic _, _, h => by simp [GoErr.asPgError] at h
  | .validationErr _ _, _, h => by simp [GoErr.asPgError] at h
  | .api _ _ _, _, h => by simp [GoErr.asPgError] at h

/-- Rendering of a `required` violation. -/
theorem pfm_required (name : String) :
    publicFacingMessage ⟨name, "required"⟩ =
      "Field `" ++ name ++ "` is required." := by
  show ("Field `" ++ name ++ "` is " ++ "required" ++ "." : String) = _
  rw [strAppendAssoc ("Field `" ++ name) "` is " "required",
    strAppendAssoc ("Field `" ++ name) ("` is " ++ "required") "."]
  rfl

/-- A singleton log record is produced by every branch of the error
classification, always invoked on the logger the pipeline was given. -/
theorem classify_logs (lg : Option SLogger) (err : GoErr) :
    ∃ lvl msg, (classifyAndWrite lg err).logs = [⟨lg, lvl, msg⟩] := by
  unfold classifyAndWrite
  dsimp only
  split
  · exact ⟨"info", "API error response", rfl⟩
  · split
    · exact ⟨"error", "request timeout", rfl⟩
    · exact ⟨"error", "error running API route", rfl⟩

/-- The pipeline's `handlerArg` is the one recorded by the inner closure. -/
theorem handlerArg_innerRun {TReq TResp : Type} (logger : Option SLogger)
    (meta : EndpointMeta) (ep : EndpointModel TReq TResp) (r : Request) :
    (executeAPIEndpoint logger meta ep r).handlerArg = (innerRun ep meta r).1 := by
  unfold executeAPIEndpoint
  rcases hir : innerRun ep meta r with ⟨h, res⟩
  cases res <;> simp

/-- Claim C5: the validation-extraction function returns no value exactly when
the tri-state field is absent (`Set = false`) or explicit-null (`Set = true`,
`Value = nil`), and returns the inner value whenever the field is
explicit-value, including when that value is the type's zero value. -/
theorem claim_C5_extract_for_validation {T : Type} (f : ExplicitNullable T) :
    (ExtractExplicitNullableValueForValidation f = none ↔
      (f.Set = false ∨ f.Value = none)) ∧
    (∀ v : T,
      ExtractExplicitNullableValueForValidation ⟨true, some v⟩ = some v) := by
  constructor
  · rcases f with ⟨s, v⟩
    cases s <;> cases v <;> simp [ExtractExplicitNullableValueForValidation]
  · intro v
    simp [ExtractExplicitNullableValueForValidation]

/-- Claim C6: decoding a tri-state field from a JSON payload maps an absent
key to the absent state, a literal `null` to explicit-null, any other
successfully decoded value to explicit-value, and a failing inner decode fails
the whole payload decode with that error. -/
theorem claim_C6_tristate_json_mapping {T : Type}
    (decodeT : String → Except String T) (dataV : String) (v : T)
    (dataE e : String)
    (hnV : dataV ≠ "null") (hdV : decodeT dataV = .ok v)
    (hnE : dataE ≠ "null") (hdE : decodeT dataE = .error e) :
    decodeExplicitNullableField none decodeT = .ok ⟨false, none⟩ ∧
    decodeExplicitNullableField (some "null") decodeT = .ok ⟨true, none⟩ ∧
    decodeExplicitNullableField (some dataV) decodeT = .ok ⟨true, some v⟩ ∧
    decodeExplicitNullableField (some dataE) decodeT = .error e := by
  refine ⟨rfl, rfl, ?_, ?_⟩
  · simp [decodeExplicitNullableField, UnmarshalJSON, hnV, hdV]
  · simp [decodeExplicitNullableField, UnmarshalJSON, hnE, hdE]

/-- Boolean decoder fixture standing in for `json.Unmarshal` at `bool`. -/
def boolFixtureDecode : String → Except String Bool := fun s =>
  if s = "true" then .ok true
  else if s = "false" then .ok false
  else .error ("invalid bool: " ++ s)

/-- Witness for claim C6 at the boolean decoder fixture. -/
theorem claim_C6_witness :
    decodeExplicitNullableField none boolFixtureDecode = .ok ⟨false, none⟩ ∧
    decodeExplicitNullableField (some "null") boolFixtureDecode =
      .ok ⟨true, none⟩ ∧
    decodeExplicitNullableField (some "true") boolFixtureDecode =
      .ok ⟨true, some true⟩ ∧
    decodeExplicitNullableField (some "xyz") boolFixtureDecode =
      .error ("invalid bool: " ++ "xyz") :=
  claim_C6_tristate_json_mapping boolFixtureDecode "true" true "xyz"
    ("invalid bool: " ++ "xyz") (by decide) rfl (by decide) rfl

/-- Claim C10: `UnmarshalJSON` sets `Set = true` before attempting to decode
the inner value, so when the inner decode fails the call returns that error
but leaves the receiver mutated with `Set = true` (its `Value` untouched)
rather than in its prior state. -/
theorem claim_C10_unmarshal_not_atomic {T : Type} (ps : ExplicitNullable T)
    (decodeT : String → Except String T) (data e : String)
    (hn : data ≠ "null") (hd : decodeT data = .error e) :
    UnmarshalJSON ps decodeT data = ({ ps with Set := true }, some e) := by
  simp [UnmarshalJSON, hn, hd]

/-- Witness for claim C10: a failing inner decode on a previously-absent field
reports the error yet leaves the field marked present. -/
theorem claim_C10_witness :
    UnmarshalJSON (⟨false, none⟩ : ExplicitNullable Bool) boolFixtureDecode
      "xyz" = (⟨true, none⟩, some ("invalid bool: " ++ "xyz")) :=
  claim_C10_unmarshal_not_atomic ⟨false, none⟩ boolFixtureDecode "xyz"
    ("invalid bool: " ++ "xyz") (by decide) rfl

/-- Claim C7: the wire body of an error envelope is the JSON serialization of
only the public message: envelopes agreeing on message and status code produce
byte-identical bodies whatever their internal causes, and the body is exactly
the one-field `message` object, so neither the internal cause nor the status
code appears in it. -/
theorem claim_C7_write_only_message (e1 e2 : APIError)
    (hm : e1.Message = e2.Message) (hs : e1.StatusCode = e2.StatusCode) :
    e1.write.body = e2.write.body ∧
    e1.write.body = "\x7b\"message\":" ++ jsonQuote e1.Message ++ "\x7d" := by
  refine ⟨?_, APIError.marshal_message e1⟩
  rw [show e1.write.body = e1.marshal from rfl,
    show e2.write.body = e2.marshal from rfl,
    APIError.marshal_message, APIError.marshal_message, hm]

/-- Witness for claim C7: two envelopes differing only in the presence of an
internal cause produce the same body, which holds only the message. -/
theorem claim_C7_witness :
    (APIError.mk none "Bad request." 400).write.body =
      (APIError.mk (some (.generic "secret internal cause"))
        "Bad request." 400).write.body ∧
    (APIError.mk none "Bad request." 400).write.body =
      "\x7b\"message\":" ++ jsonQuote "Bad request." ++ "\x7d" :=
  claim_C7_write_only_message (APIError.mk none "Bad request." 400)
    (APIError.mk (some (.generic "secret internal cause")) "Bad request." 400)
    rfl rfl

/-- Claim C2: when the error path receives an error that carries no API-error
envelope and satisfies `errors.Is(err, context.DeadlineExceeded)`, it writes
status 503 with the fixed timeout message, and never status 500. -/
theorem claim_C2_deadline_503 (logger : Option SLogger) (err : GoErr)
    (h1 : err.asAPIError = none) (h2 : err.isDeadlineExceeded = true) :
    (classifyAndWrite logger err).response.status = some 503 ∧
    (classifyAndWrite logger err).response.body =
      "\x7b\"message\":\"Request timed out. Retrying the request might work.\"\x7d" ∧
    (classifyAndWrite logger err).response.status ≠ some 500 := by
  have hmi := maybeInterpret_of_deadline err h2
  have hcw : classifyAndWrite logger err =
      { response := (APIError.mk none
          "Request timed out. Retrying the request might work." 503).write
        logs := [⟨logger, "error", "request timeout"⟩] } := by
    unfold classifyAndWrite
    dsimp only
    rw [hmi, h1, h2]
    rfl
  rw [hcw]
  refine ⟨rfl, ?_, ?_⟩
  · rw [show (APIError.mk none
        "Request timed out. Retrying the request might work." 503).write.body =
        (APIError.mk none
          "Request timed out. Retrying the request might work." 503).marshal
        from rfl, APIError.marshal_message]
    rfl
  · show (some 503 : Option Nat) ≠ some 500
    decide

/-- Witness for claim C2: a handler error wrapping the deadline sentinel. -/
theorem claim_C2_witness :
    (classifyAndWrite (some SLogger.defaultLogger)
        (.wrap "error in handler: " .deadlineExceeded)).response.status =
      some 503 ∧
    (classifyAndWrite (some SLogger.defaultLogger)
        (.wrap "error in handler: " .deadlineExceeded)).response.body =
      "\x7b\"message\":\"Request timed out. Retrying the request might work.\"\x7d" ∧
    (classifyAndWrite (some SLogger.defaultLogger)
        (.wrap "error in handler: " .deadlineExceeded)).response.status ≠
      some 500 :=
  claim_C2_deadline_503 (some SLogger.defaultLogger)
    (.wrap "error in handler: " .deadlineExceeded) rfl rfl

/-- Claim C3: error reinterpretation is an allow-list.  An error matching a
database connect failure is rewritten to a 400 envelope with a fixed message
and the original error as internal cause; so is a database error whose
SQLSTATE is insufficient-privilege; a database error with any other code is
returned unchanged and written as a generic 500; any other unclassified error
(carrying no envelope and not a timeout) is returned unchanged and written as
a generic 500. -/
theorem claim_C3_reinterpretation_allow_list (lg : Option SLogger)
    (e1 e2 e3 e4 : GoErr) (m2 otherCode m3 : String)
    (h1 : (e1.asConnectError).isSome = true)
    (h2a : e2.asConnectError = none)
    (h2b : e2.asPgError = some (insufficientPrivilege, m2))
    (h3a : e3.asConnectError = none)
    (h3b : e3.asPgError = some (otherCode, m3))
    (h3c : otherCode ≠ insufficientPrivilege)
    (h4a : e4.asConnectError = none) (h4b : e4.asPgError = none)
    (h4c : e4.asAPIError = none) (h4d : e4.isDeadlineExceeded = false) :
    maybeInterpretInternalError e1 =
      .api "There was a problem connecting to the configured database. Check logs for details."
        400 (some e1) ∧
    maybeInterpretInternalError e2 =
      .api "Insufficient database privilege to perform this operation."
        400 (some e2) ∧
    (maybeInterpretInternalError e3 = e3 ∧
      (classifyAndWrite lg e3).response.status = some 500 ∧
      (classifyAndWrite lg e3).response.body =
        "\x7b\"message\":\"Internal server error. Check logs for more information.\"\x7d") ∧
    (maybeInterpretInternalError e4 = e4 ∧
      (classifyAndWrite lg e4).response.status = some 500 ∧
      (classifyAndWrite lg e4).response.body =
        "\x7b\"message\":\"Internal server error. Check logs for more information.\"\x7d") := by
  obtain ⟨m1, hm1⟩ := Option.isSome_iff_exists.mp h1
  have hbody : (APIError.mk none
      "Internal server error. Check logs for more information." 500).write.body =
      "\x7b\"message\":\"Internal server error. Check logs for more information.\"\x7d" := by
    rw [show (APIError.mk none
        "Internal server error. Check logs for more information." 500).write.body =
        (APIError.mk none
          "Internal server error. Check logs for more information." 500).marshal
        from rfl, APIError.marshal_message]
    rfl
  refine ⟨?_, ?_, ⟨?_, ?_, ?_⟩, ⟨?_, ?_, ?_⟩⟩
  · simp [maybeInterpretInternalError, hm1]
  · simp [maybeInterpretInternalError, h2a, h2b]
  · simp [maybeInterpretInternalError, h3a, h3b, h3c]
  · have hm3 : maybeInterpretInternalError e3 = e3 := by
      simp [maybeInterpretInternalError, h3a, h3b, h3c]
    obtain ⟨hapi, hdl⟩ := pg_leaf_facts e3 (otherCode, m3) h3b
    have hcw : classifyAndWrite lg e3 =
        { response := (APIError.mk none
            "Internal server error. Check logs for more information." 500).write
          logs := [⟨lg, "error", "error running API route"⟩] } := by
      unfold classifyAndWrite
      dsimp only
      rw [hm3, hapi, hdl]
      simp
    rw [hcw]
    rfl
  · have hm3 : maybeInterpretInternalError e3 = e3 := by
      simp [maybeInterpretInternalError, h3a, h3b, h3c]
    obtain ⟨hapi, hdl⟩ := pg_leaf_facts e3 (otherCode, m3) h3b
    have hcw : classifyAndWrite lg e3 =
        { response := (APIError.mk none
            "Internal server error. Check logs for more information." 500).write
          logs := [⟨lg, "error", "error running API route"⟩] } := by
      unfold classifyAndWrite
      dsimp only
      rw [hm3, hapi, hdl]
      simp
    rw [hcw]
    exact hbody
  · simp [maybeInterpretInternalError, h4a, h4b]
  · have hm4 : maybeInterpretInternalError e4 = e4 := by
      simp [maybeInterpretInternalError, h4a, h4b]
    have hcw : classifyAndWrite lg e4 =
        { response := (APIError.mk none
            "Internal server error. Check logs for more information." 500).write
          logs := [⟨lg, "error", "error running API route"⟩] } := by
      unfold classifyAndWrite
      dsimp only
      rw [hm4, h4c, h4d]
      simp
    rw [hcw]
    rfl
  · have hm4 : maybeInterpretInternalError e4 = e4 := by
      simp [maybeInterpretInternalError, h4a, h4b]
    have hcw : classifyAndWrite lg e4 =
        { response := (APIError.mk none
            "Internal server error. Check logs for more information." 500).write
          logs := [⟨lg, "error", "error running API route"⟩] } := by
      unfold classifyAndWrite
      dsimp only
      rw [hm4, h4c, h4d]
      simp
    rw [hcw]
    exact hbody

/-- Witness for claim C3: a connect failure, a wrapped insufficient-privilege
error (as the endpoint test produces), a cardinality-violation error, and a
generic error. -/
theorem claim_C3_witness :
    maybeInterpretInternalError (.pgConnect "connection refused") =
      .api "There was a problem connecting to the configured database. Check logs for details."
        400 (some (.pgConnect "connection refused")) ∧
    maybeInterpretInternalError
        (.wrap "error running Postgres query: " (.pg "42501" "permission denied")) =
      .api "Insufficient database privilege to perform this operation."
        400 (some (.wrap "error running Postgres query: "
          (.pg "42501" "permission denied"))) ∧
    (maybeInterpretInternalError (.pg "21000" "cardinality violation") =
        .pg "21000" "cardinality violation" ∧
      (classifyAndWrite (some SLogger.defaultLogger)
          (.pg "21000" "cardinality violation")).response.status = some 500 ∧
      (classifyAndWrite (some SLogger.defaultLogger)
          (.pg "21000" "cardinality violation")).response.body =
        "\x7b\"message\":\"Internal server error. Check logs for more information.\"\x7d") ∧
    (maybeInterpretInternalError (.generic "other error") = .generic "other error" ∧
      (classifyAndWrite (some SLogger.defaultLogger)
          (.generic "other error")).response.status = some 500 ∧
      (classifyAndWrite (some SLogger.defaultLogger)
          (.generic "other error")).response.body =
        "\x7b\"message\":\"Internal server error. Check logs for more information.\"\x7d") :=
  claim_C3_reinterpretation_allow_list (some SLogger.defaultLogger)
    (.pgConnect "connection refused")
    (.wrap "error running Postgres query: " (.pg "42501" "permission denied"))
    (.pg "21000" "cardinality violation") (.generic "other error")
    "permission denied" "21000" "cardinality violation"
    rfl rfl rfl rfl rfl (by decide) rfl rfl rfl rfl

/-- Claim C8: `InvokeHandler` runs validate-request, invoke, validate-response
with no timeout derivation and no error classification, and treats its two
validation failures asymmetrically: an invalid request yields a 400
`BadRequest` envelope built from the first-violation message; an invalid
handler response yields a plain wrapped error that carries no envelope; a
handler error is returned unchanged. -/
theorem claim_C8_invoke_handler {TReq TResp : Type}
    (vReq : TReq → Option Violation) (handler : TReq → Except GoErr TResp)
    (vResp : TResp → Option Violation)
    (r1 r2 r3 r4 : TReq) (v1 v3 : Violation) (e2 : GoErr)
    (resp3 resp4 : TResp)
    (h1 : vReq r1 = some v1)
    (h2a : vReq r2 = none) (h2b : handler r2 = .error e2)
    (h3a : vReq r3 = none) (h3b : handler r3 = .ok resp3)
    (h3c : vResp resp3 = some v3)
    (h4a : vReq r4 = none) (h4b : handler r4 = .ok resp4)
    (h4c : vResp resp4 = none) :
    InvokeHandler vReq handler vResp r1 =
      .error (.api (publicFacingMessage v1) 400 none) ∧
    InvokeHandler vReq handler vResp r2 = .error e2 ∧
    (InvokeHandler vReq handler vResp r3 =
      .error (.wrap "apitest: error validating response API resource: "
        (.validationErr v3.field v3.tag)) ∧
     GoErr.asAPIError
        (.wrap "apitest: error validating response API resource: "
          (.validationErr v3.field v3.tag)) = none) ∧
    InvokeHandler vReq handler vResp r4 = .ok resp4 := by
  refine ⟨?_, ?_, ⟨?_, rfl⟩, ?_⟩
  · simp [InvokeHandler, h1]
  · simp [InvokeHandler, h2a, h2b]
  · simp [InvokeHandler, h3a, h3b, h3c]
  · simp [InvokeHandler, h4a, h4b, h4c]

/-- Request validator fixture for the direct-invocation helper: request 1 is
missing its required `message` field. -/
def apitestVReq : Nat → Option Violation := fun n =>
  if n = 1 then some ⟨"message", "required"⟩ else none

/-- Handler fixture: request 2 fails, every other request succeeds. -/
def apitestHandler : Nat → Except GoErr Nat := fun n =>
  if n = 2 then .error (.generic "handler failure") else .ok (n * 10)

/-- Response validator fixture: response 30 is missing its required `id`
field. -/
def apitestVResp : Nat → Option Violation := fun n =>
  if n = 30 then some ⟨"id", "required"⟩ else none

/-- Witness for claim C8 on the numeric fixtures: an invalid request, a
failing handler, an invalid response, and a clean run. -/
theorem claim_C8_witness :
    InvokeHandler apitestVReq apitestHandler apitestVResp 1 =
      .error (.api (publicFacingMessage ⟨"message", "required"⟩) 400 none) ∧
    InvokeHandler apitestVReq apitestHandler apitestVResp 2 =
      .error (.generic "handler failure") ∧
    (InvokeHandler apitestVReq apitestHandler apitestVResp 3 =
      .error (.wrap "apitest: error validating response API resource: "
        (.validationErr (Violation.mk "id" "required").field
          (Violation.mk "id" "required").tag)) ∧
     GoErr.asAPIError
        (.wrap "apitest: error validating response API resource: "
          (.validationErr (Violation.mk "id" "required").field
            (Violation.mk "id" "required").tag)) = none) ∧
    InvokeHandler apitestVReq apitestHandler apitestVResp 4 = .ok 40 :=
  claim_C8_invoke_handler apitestVReq apitestHandler apitestVResp
    1 2 3 4 ⟨"message", "required"⟩ ⟨"id", "required"⟩
    (.generic "handler failure") 30 40
    rfl rfl rfl rfl rfl rfl rfl rfl rfl

/-- Claim C9: when `Mount` receives nil options or options with a nil logger,
the closure it registers calls the pipeline with `opts.Logger` — that is, a
nil logger — and not with the `slog.Default()` fallback that `Mount` computes
and sets on the endpoint; and every error-classification branch performs a
logging call on that nil logger. -/
theorem claim_C9_nil_logger {TReq TResp : Type} (ep : EndpointModel TReq TResp)
    (meta : EndpointMeta) (optsIn : Option MountOpts)
    (h : (optsIn.getD ⟨none⟩).Logger = none) :
    (Mount ep meta optsIn).endpointLogger = some SLogger.defaultLogger ∧
    (∀ r : Request, (Mount ep meta optsIn).innerHandler r =
      executeAPIEndpoint none meta ep r) ∧
    (∀ err : GoErr,
      (classifyAndWrite (none : Option SLogger) err).logs ≠ [] ∧
      ∀ c ∈ (classifyAndWrite (none : Option SLogger) err).logs,
        c.receiver = none) := by
  refine ⟨?_, ?_, ?_⟩
  · simp [Mount, h]
  · intro r
    simp [Mount, h]
  · intro err
    obtain ⟨lvl, msg, hl⟩ := classify_logs (none : Option SLogger) err
    rw [hl]
    simp

/-- Witness for claim C9: mounting the GET fixture endpoint with nil
options. -/
theorem claim_C9_witness :
    (Mount epGet metaGet none).endpointLogger = some SLogger.defaultLogger ∧
    (∀ r : Request, (Mount epGet metaGet none).innerHandler r =
      executeAPIEndpoint none metaGet epGet r) ∧
    (∀ err : GoErr,
      (classifyAndWrite (none : Option SLogger) err).logs ≠ [] ∧
      ∀ c ∈ (classifyAndWrite (none : Option SLogger) err).logs,
        c.receiver = none) :=
  claim_C9_nil_logger epGet metaGet none rfl

/-- Claim C1 counterexample: the pipeline on an empty-bodied POST against a
schema requiring field `message` (the scenario of
`TestMountAndServe/ValidationError`) writes status 400 whose body quotes the
field name with backticks, not with the single quotes the claim states. -/
theorem claim_C1_counterexample :
    (executeAPIEndpoint (some SLogger.defaultLogger) metaPost epPost
        ⟨Method.post, BodyRead.ok ""⟩).response.status = some 400 ∧
    (executeAPIEndpoint (some SLogger.defaultLogger) metaPost epPost
        ⟨Method.post, BodyRead.ok ""⟩).response.body =
      "\x7b\"message\":\"Field `message` is required.\"\x7d" ∧
    (executeAPIEndpoint (some SLogger.defaultLogger) metaPost epPost
        ⟨Method.post, BodyRead.ok ""⟩).response.body ≠
      "\x7b\"message\":\"Field \x27message\x27 is required.\"\x7d" := by
  refine ⟨rfl, rfl, by decide⟩

/-- Claim C1 (amended): whenever the decoded (and raw-extracted) request
fails validation with a first violation on a `required` field, the pipeline
writes status 400 with body exactly the JSON object whose only `message`
field reads: Field backtick name backtick is required. -/
theorem claim_C1_required_field_400 {TReq TResp : Type}
    (logger : Option SLogger) (meta : EndpointMeta)
    (ep : EndpointModel TReq TResp) (r : Request) (req0 req : TReq)
    (name : String)
    (hd : readAndDecodeBody ep r = .ok req0)
    (hx : applyRawExtract ep req0 = .ok req)
    (hv : ep.validate req = some ⟨name, "required"⟩) :
    (executeAPIEndpoint logger meta ep r).response.status = some 400 ∧
    (executeAPIEndpoint logger meta ep r).response.contentType =
      some "application/json; charset=utf-8" ∧
    (executeAPIEndpoint logger meta ep r).response.body =
      "\x7b\"message\":" ++ jsonQuote ("Field `" ++ name ++ "` is required.")
        ++ "\x7d" := by
  have hrun : innerRun ep meta r =
      (none, .error (.api (publicFacingMessage ⟨name, "required"⟩) 400 none)) := by
    unfold innerRun
    rw [hd]
    dsimp only
    rw [hx]
    dsimp only
    rw [hv]
  have hclass : classifyAndWrite logger
      (GoErr.api (publicFacingMessage ⟨name, "required"⟩) 400 none) =
      { response := (APIError.mk none
          (publicFacingMessage ⟨name, "required"⟩) 400).write
        logs := [⟨logger, "info", "API error response"⟩] } := rfl
  have hres : executeAPIEndpoint logger meta ep r =
      { response := (APIError.mk none
          (publicFacingMessage ⟨name, "required"⟩) 400).write
        handlerArg := none
        logs := [⟨logger, "info", "API error response"⟩] } := by
    unfold executeAPIEndpoint
    rw [hrun]
    rfl
  rw [hres]
  refine ⟨rfl, rfl, ?_⟩
  rw [show (APIError.mk none (publicFacingMessage ⟨name, "required"⟩)
        400).write.body =
      (APIError.mk none (publicFacingMessage ⟨name, "required"⟩) 400).marshal
      from rfl, APIError.marshal_message]
  rw [pfm_required name]

/-- Witness for the amended claim C1 at the POST fixture with an empty body:
the zero request misses its required `message` field. -/
theorem claim_C1_witness :
    (executeAPIEndpoint (some SLogger.defaultLogger) metaPost epPost
        ⟨Method.post, BodyRead.ok ""⟩).response.status = some 400 ∧
    (executeAPIEndpoint (some SLogger.defaultLogger) metaPost epPost
        ⟨Method.post, BodyRead.ok ""⟩).response.contentType =
      some "application/json; charset=utf-8" ∧
    (executeAPIEndpoint (some SLogger.defaultLogger) metaPost epPost
        ⟨Method.post, BodyRead.ok ""⟩).response.body =
      "\x7b\"message\":" ++
        jsonQuote ("Field `" ++ "message" ++ "` is required.") ++ "\x7d" :=
  claim_C1_required_field_400 (some SLogger.defaultLogger) metaPost epPost
    ⟨Method.post, BodyRead.ok ""⟩ epPost.zero epPost.zero "message"
    rfl rfl rfl

/-- Claim C4: on a GET request (for an endpoint whose request type has no raw
extractor) the pipeline never reads or decodes the body: the body-reading
stage yields the zero request for every body, the whole pipeline outcome is
independent of the body — so a malformed body causes no decode failure and no
error response — and the handler, when invoked, receives the zero request
value. -/
theorem claim_C4_get_ignores_body {TReq TResp : Type}
    (logger : Option SLogger) (meta : EndpointMeta)
    (ep : EndpointModel TReq TResp) (b1 b2 : BodyRead)
    (hx : ep.rawExtract = none) :
    (∀ b : BodyRead,
      readAndDecodeBody ep ⟨Method.get, b⟩ = .ok ep.zero) ∧
    executeAPIEndpoint logger meta ep ⟨Method.get, b1⟩ =
      executeAPIEndpoint logger meta ep ⟨Method.get, b2⟩ ∧
    (∀ req : TReq,
      (executeAPIEndpoint logger meta ep ⟨Method.get, b1⟩).handlerArg =
        some req → req = ep.zero) := by
  refine ⟨fun b => rfl, rfl, ?_⟩
  intro req h
  rw [handlerArg_innerRun] at h
  have hax : applyRawExtract ep ep.zero = .ok ep.zero := by
    simp [applyRawExtract, hx]
  have hun : innerRun ep meta ⟨Method.get, b1⟩ =
      (match ep.validate ep.zero with
      | some v => (none, .error (.api (publicFacingMessage v) 400 none))
      | none =>
        match ep.execute ep.zero with
        | .error e => (some ep.zero, .error e)
        | .ok resp => (some ep.zero, respondStage ep meta resp)) := by
    unfold innerRun
    rw [show readAndDecodeBody ep ⟨Method.get, b1⟩ = Except.ok ep.zero from rfl]
    dsimp only
    rw [hax]
  rw [hun] at h
  cases hv : ep.validate ep.zero with
  | some v =>
    rw [hv] at h
    simp at h
  | none =>
    rw [hv] at h
    cases he : ep.execute ep.zero with
    | error e =>
      rw [he] at h
      simp at h
      exact h.symm
    | ok resp =>
      rw [he] at h
      simp at h
      exact h.symm

/-- Witness for claim C4: the GET fixture endpoint with a malformed body and
an empty body. -/
theorem claim_C4_witness :
    (∀ b : BodyRead,
      readAndDecodeBody epGet ⟨Method.get, b⟩ = .ok epGet.zero) ∧
    executeAPIEndpoint (some SLogger.defaultLogger) metaGet epGet
        ⟨Method.get, BodyRead.ok "definitely not json"⟩ =
      executeAPIEndpoint (some SLogger.defaultLogger) metaGet epGet
        ⟨Method.get, BodyRead.ok ""⟩ ∧
    (∀ req : List SField,
      (executeAPIEndpoint (some SLogger.defaultLogger) metaGet epGet
          ⟨Method.get, BodyRead.ok "definitely not json"⟩).handlerArg =
        some req → req = epGet.zero) :=
  claim_C4_get_ignores_body (some SLogger.defaultLogger) metaGet epGet
    (BodyRead.ok "definitely not json") (BodyRead.ok "") rfl

end Apiframe


